import Mathlib

/-!
Verification development for the startup/shutdown orchestration of the
apisix-ingress-controller `ingress` sub command (cmd/ingress/ingress.go).

The Go code is embedded shallowly:

* the stop channel is a two-state value (`ChanState`), and the Go `close`
  builtin is `closeChan` (closing an already closed channel is a runtime
  panic in Go, modelled as an error result);
* `waitForSignal` is modelled over the list of OS signals delivered to the
  process, given as (arrival time in nanoseconds, signal number) pairs in
  delivery order -- `signal.Notify` relays only SIGINT and SIGTERM;
* the body of the `Run` closure of `NewIngressCommand` is modelled as a
  sequential main flow (`runMain`) that records the steps it performs, its
  exit code and the stderr diagnostic written by `dief`, parameterised by
  the outcomes of the external collaborators (config file load, logger
  construction, informer initialisation, API server construction and run,
  delivered signals), collected in an `Ext` record;
* the three goroutines spawned by the main flow are modelled as per-task
  straight-line action lists (`sysTraces`), with a happens-before relation
  `HB` generated by program order, the go-statement edge from a spawn point
  to the spawned body, and transitivity;
* time is modelled by letting only `time.Sleep` consume time
  (`timedTrace`), and process death kills pending goroutine actions
  (`processEndTime`, `customFactoryStartRealized`).
-/

namespace Ingress

/-- Signal number of SIGINT (syscall.SIGINT). -/
def SIGINT : Nat := 2

/-- Signal number of SIGTERM (syscall.SIGTERM). -/
def SIGTERM : Nat := 15

/-- The signals subscribed by `signal.Notify(sigCh, syscall.SIGINT,
syscall.SIGTERM)` in waitForSignal (ingress.go line 48); only these are
relayed to sigCh, every other signal is not seen by this code. -/
def notifiedSignals : List Nat := [SIGINT, SIGTERM]

/-- State of the stop channel: still open (armed) or closed (fired). -/
inductive ChanState
  | armed
  | fired
deriving DecidableEq

/-- The Go `close` builtin applied to the stop channel: closing an open
channel closes it; closing an already closed channel is a runtime panic in
Go (modelled as an error, never as a no-op). -/
def closeChan : ChanState → Except String ChanState
  | ChanState.armed => Except.ok ChanState.fired
  | ChanState.fired => Except.error ("close of closed channel")

/-- The first delivered signal among the subscribed ones, i.e. the signal
the blocking receive `sig := <-sigCh` returns; none when no subscribed
signal is ever delivered. -/
def firstSubscribed (signals : List (Nat × Nat)) : Option (Nat × Nat) :=
  (signals.filter (fun p => decide (p.2 ∈ notifiedSignals))).head?

/-- waitForSignal (ingress.go lines 46-53): subscribe SIGINT and SIGTERM,
block on one receive, log, close the stop channel. Returns the received
signal (none when it blocks forever because no subscribed signal arrives,
leaving the channel armed) and the result of the single close it performs,
which is applied to the still-armed channel. -/
def waitForSignalRun (signals : List (Nat × Nat)) :
    Option (Nat × Nat) × Except String ChanState :=
  match firstSubscribed signals with
  | none => (none, Except.ok ChanState.armed)
  | some p => (some p, closeChan ChanState.armed)

/-- The configuration value. pkg/config is outside the visible source; the
fields are the ones bound by the persistent flags of NewIngressCommand
(ingress.go lines 171-179), with the nested Kubernetes and APISIX sections
flattened. -/
structure Config where
  logLevel : String
  logOutput : String
  httpListen : String
  enableProfiling : Bool
  kubeconfig : String
  resyncIntervalNs : Nat
  apisixBaseURL : String
  apisixAdminKey : String
deriving DecidableEq

/-- The flag-populated configuration when every flag keeps the default
value registered in ingress.go lines 171-179. -/
def defaultFlagConfig : Config :=
  { logLevel := "info", logOutput := "stderr", httpListen := ":8080",
    enableProfiling := true, kubeconfig := "",
    resyncIntervalNs := 60000000000, apisixBaseURL := "",
    apisixAdminKey := "" }

/-- The config step of the Run closure (ingress.go lines 83-89): when
--config-path is non-empty, NewConfigFromFile is called and on success its
result replaces the flag-built configuration wholesale (`cfg = c`); when
--config-path is empty the flag-built configuration stays in force. -/
def effectiveConfig (configPath : String) (flagCfg : Config)
    (fileLoadResult : Except String Config) : Except String Config :=
  if configPath = "" then Except.ok flagCfg else fileLoadResult

/-- The percent character. -/
def percentChar : Char := Char.ofNat 37

/-- The character s. -/
def sChar : Char := Char.ofNat 115

/-- The newline character. -/
def newlineChar : Char := Char.ofNat 10

/-- Replace each %s verb by the argument, over character lists; this is
what fmt.Fprintf does for the single-%s templates dief receives. -/
def substPercentS (arg : List Char) : List Char → List Char
  | [] => []
  | [c] => [c]
  | c :: d :: rest =>
      if c = percentChar ∧ d = sChar then arg ++ substPercentS arg rest
      else c :: substPercentS arg (d :: rest)

/-- Substitution of the %s verb of the dief templates, as fmt.Fprintf
performs it. -/
def sprintfS (template arg : String) : String :=
  String.mk (substPercentS arg.data template.data)

/-- strings.HasSuffix(template, a newline) for the one-character suffix
dief checks: the last character is a newline. -/
def endsWithNewline (s : String) : Bool :=
  s.data.getLast? == some newlineChar

/-- dief (ingress.go lines 38-44): append a newline to the template when it
lacks one, write the formatted diagnostic to stderr, call os.Exit(1).
Result: (process exit code, stderr line). -/
def dief (template arg : String) : Nat × String :=
  let t := if endsWithNewline template then template else template ++ "\n"
  (1, sprintfS t arg)

/-- Outcomes of the external collaborators of the Run closure, fixing one
execution: the config-file load result, logger construction, configuration
marshalling, kube informer initialisation and API server construction
(each `some errorMessage` on failure, `none` on success), the API server
Run call (`some (time, errorMessage)` when it returns a non-nil error at
that time, `none` when it serves until shutdown), and the OS signals
delivered to the process as (time in nanoseconds, signal number) pairs in
delivery order. -/
structure Ext where
  fileLoadResult : Except String Config
  loggerResult : Option String
  marshalResult : Option String
  informerResult : Option String
  newServerResult : Option String
  serverRunResult : Option (Nat × String)
  signals : List (Nat × Nat)

/-- Steps of the main flow of the Run closure, in program order. -/
inductive StartEvent
  | setBaseUrl
  | initInformer
  | resetLeader
  | registerEndpoint
  | spawnCoreFactoryStart
  | registerApisixRoute
  | registerApisixUpstream
  | registerApisixService
  | registerApisixTLS
  | spawnDelayedCustomStart
  | newServer
  | spawnServerRun
  | closeStop
  | logExited
deriving DecidableEq

/-- The main-flow events of a failure-free startup, in program order
(ingress.go lines 106-163): conf.SetBaseUrl, kube.InitInformer,
collector.ResetLeader, c.Endpoint registration, the go statement starting
the core factory, the four custom-resource registrations, the go statement
of the delayed custom-factory start, api.NewServer, and the go statement
running the server. -/
def startupEvents : List StartEvent :=
  [StartEvent.setBaseUrl, StartEvent.initInformer, StartEvent.resetLeader,
   StartEvent.registerEndpoint, StartEvent.spawnCoreFactoryStart,
   StartEvent.registerApisixRoute, StartEvent.registerApisixUpstream,
   StartEvent.registerApisixService, StartEvent.registerApisixTLS,
   StartEvent.spawnDelayedCustomStart, StartEvent.newServer,
   StartEvent.spawnServerRun]

/-- Result of the main flow: the events it performed in program order, the
exit code with which it ends the process (none when it blocks forever on
the signal receive), and the diagnostic line dief wrote to stderr. -/
structure RunOutcome where
  events : List StartEvent
  exitCode : Option Nat
  stderr : Option String
deriving DecidableEq

/-- The sequential main flow of the Run closure (ingress.go lines 82-166).
Goroutine bodies are modelled separately and appear here only as their
spawn points. Every failure branch is the corresponding dief call. -/
def runMain (configPath : String) (flagCfg : Config) (ext : Ext) :
    RunOutcome :=
  match effectiveConfig configPath flagCfg ext.fileLoadResult with
  | Except.error e =>
      let f := dief ("failed to initialize configuration: %s") e
      { events := [], exitCode := some f.1, stderr := some f.2 }
  | Except.ok _cfg =>
      match ext.loggerResult with
      | some e =>
          let f := dief ("failed to initialize logging: %s") e
          { events := [], exitCode := some f.1, stderr := some f.2 }
      | none =>
          match ext.marshalResult with
          | some d =>
              let f := dief ("failed to show configuration: %s") d
              { events := [], exitCode := some f.1, stderr := some f.2 }
          | none =>
              match ext.informerResult with
              | some e =>
                  let f := dief ("failed to initialize kube informers: %s") e
                  { events := [StartEvent.setBaseUrl],
                    exitCode := some f.1, stderr := some f.2 }
              | none =>
                  match ext.newServerResult with
                  | some e =>
                      let f := dief ("failed to create API Server: %s") e
                      { events :=
                          [StartEvent.setBaseUrl, StartEvent.initInformer,
                           StartEvent.resetLeader, StartEvent.registerEndpoint,
                           StartEvent.spawnCoreFactoryStart,
                           StartEvent.registerApisixRoute,
                           StartEvent.registerApisixUpstream,
                           StartEvent.registerApisixService,
                           StartEvent.registerApisixTLS,
                           StartEvent.spawnDelayedCustomStart],
                        exitCode := some f.1, stderr := some f.2 }
                  | none =>
                      match firstSubscribed ext.signals with
                      | none =>
                          { events := startupEvents,
                            exitCode := none, stderr := none }
                      | some _ =>
                          { events := startupEvents ++
                              [StartEvent.closeStop, StartEvent.logExited],
                            exitCode := some 0, stderr := none }

/-- Nanoseconds per time.Second. -/
def timeSecondNs : Nat := 1000000000

/-- The sleep length of the delayed goroutine (ingress.go line 150):
`time.Duration(10) * time.Second`. The enclosing closure has the loaded
configuration in scope, but the duration is a literal constant that reads
no configuration field and no flag. -/
def customResourceWarmUpDelayNs (_cfg : Config) : Nat := 10 * timeSecondNs

/-- Actions of the spawned goroutines, plus main-flow steps, for the
happens-before and timing models. -/
inductive GoAction
  | startEv (e : StartEvent)
  | sleepNs (n : Nat)
  | coreFactoryStart
  | customFactoryStart
  | serverRunCall
  | serverDief
deriving DecidableEq

/-- Body of the delayed goroutine (ingress.go lines 149-152):
`time.Sleep(time.Duration(10) * time.Second)` followed by
`c.SharedInformerFactory.Start(stop)`. The second parameter gives the state
of the stop channel at the moment the sleep returns; the body never reads
the channel and invokes the factory start unconditionally. -/
def delayedBodyRun (cfg : Config) (_stopAtWake : ChanState) : List GoAction :=
  [GoAction.sleepNs (customResourceWarmUpDelayNs cfg),
   GoAction.customFactoryStart]

/-- Body of the API server goroutine (ingress.go lines 159-163): call
srv.Run(stop); when it returns a non-nil error, dief ends the whole
process (exit code and stderr line returned); when it returns nil, the
goroutine ends without terminating anything. -/
def serverGoroutineRun (runResult : Option String) : Option (Nat × String) :=
  match runResult with
  | some e => some (dief ("failed to launch API Server: %s") e)
  | none => none

/-- The concurrent tasks: the main flow and the three goroutines it
spawns. -/
inductive GoTask
  | mainT
  | coreT
  | delayedT
  | serverT
deriving DecidableEq

/-- The configuration in force after the config step; on the failing path
(which spawns nothing) the flag configuration is used as a placeholder. -/
def effCfgOr (configPath : String) (flagCfg : Config) (ext : Ext) : Config :=
  match effectiveConfig configPath flagCfg ext.fileLoadResult with
  | Except.ok c => c
  | Except.error _ => flagCfg

/-- State of the stop channel at time t: it is closed at the time of the
first subscribed signal. -/
def stopStateAt (ext : Ext) (t : Nat) : ChanState :=
  match firstSubscribed ext.signals with
  | none => ChanState.armed
  | some p => if p.1 ≤ t then ChanState.fired else ChanState.armed

/-- Per-task action lists of one execution, as written in the source: the
main flow, the core factory start goroutine (line 138), the delayed
custom-resource start goroutine (lines 149-152), and the API server
goroutine (lines 159-163). -/
def sysTraces (configPath : String) (flagCfg : Config) (ext : Ext) :
    GoTask → List GoAction
  | GoTask.mainT => (runMain configPath flagCfg ext).events.map GoAction.startEv
  | GoTask.coreT => [GoAction.coreFactoryStart]
  | GoTask.delayedT =>
      delayedBodyRun (effCfgOr configPath flagCfg ext)
        (stopStateAt ext
          (customResourceWarmUpDelayNs (effCfgOr configPath flagCfg ext)))
  | GoTask.serverT =>
      GoAction.serverRunCall ::
        (match ext.serverRunResult with
         | some _ => [GoAction.serverDief]
         | none => [])

/-- The main-flow event whose execution spawns each goroutine. -/
def spawnEventOf : GoTask → Option StartEvent
  | GoTask.mainT => none
  | GoTask.coreT => some StartEvent.spawnCoreFactoryStart
  | GoTask.delayedT => some StartEvent.spawnDelayedCustomStart
  | GoTask.serverT => some StartEvent.spawnServerRun

/-- Happens-before over positions (task, index): program order inside each
task, the go-statement edge from a spawn point in the main flow to the
first action of the spawned goroutine, and transitivity. -/
inductive HB (tr : GoTask → List GoAction) :
    GoTask × Nat → GoTask × Nat → Prop
  | prog {t : GoTask} {i j : Nat} :
      i < j → j < (tr t).length → HB tr (t, i) (t, j)
  | spawn {t : GoTask} {e : StartEvent} {i : Nat} :
      spawnEventOf t = some e →
      (tr GoTask.mainT)[i]? = some (GoAction.startEv e) →
      HB tr (GoTask.mainT, i) (t, 0)
  | trans {a b c : GoTask × Nat} : HB tr a b → HB tr b c → HB tr a c

/-- Registration of a resource kind happens-before the factory start that
delivers events of that kind: the registration sits at a main-flow
position that happens-before the position of the given start action. -/
def regBeforeStart (tr : GoTask → List GoAction) (reg : StartEvent)
    (sp : GoTask × Nat) (sa : GoAction) : Prop :=
  ∃ i, (tr GoTask.mainT)[i]? = some (GoAction.startEv reg) ∧
    (tr sp.1)[sp.2]? = some sa ∧ HB tr (GoTask.mainT, i) sp

/-- Only sleeps consume time in this model. -/
def actionDuration : GoAction → Nat
  | GoAction.sleepNs n => n
  | _ => 0

/-- Completion times of a straight-line action list started at time t. -/
def timedTrace : Nat → List GoAction → List (Nat × GoAction)
  | _, [] => []
  | t, a :: rest =>
      (t + actionDuration a, a) :: timedTrace (t + actionDuration a) rest

/-- Whether an Except value is a success. -/
def exceptIsOk (r : Except String Config) : Bool :=
  match r with
  | Except.ok _ => true
  | Except.error _ => false

/-- No fatal startup failure: the config step, the logger construction,
the configuration marshalling, the informer initialisation and the API
server construction all succeed, so the main flow reaches waitForSignal. -/
def noFatalInit (configPath : String) (ext : Ext) : Bool :=
  (configPath == "" || exceptIsOk ext.fileLoadResult) &&
  ext.loggerResult.isNone && ext.marshalResult.isNone &&
  ext.informerResult.isNone && ext.newServerResult.isNone

/-- Time at which the main flow ends the process: at 0 via dief on a fatal
startup failure (startup steps take no model time), at the first
subscribed signal otherwise, never when no subscribed signal arrives. -/
def mainExitTime (configPath : String) (ext : Ext) : Option Nat :=
  if noFatalInit configPath ext then (firstSubscribed ext.signals).map Prod.fst
  else some 0

/-- Time at which the server goroutine ends the process via dief, when
srv.Run returns a non-nil error; the goroutine exists only after a
failure-free startup. -/
def serverDiefTime (configPath : String) (ext : Ext) : Option Nat :=
  if noFatalInit configPath ext then ext.serverRunResult.map Prod.fst
  else none

/-- Minimum of two optional times, none meaning never. -/
def optMin : Option Nat → Option Nat → Option Nat
  | none, b => b
  | some a, none => some a
  | some a, some b => some (min a b)

/-- Time at which the process ends: the earlier of the main-flow exit and
a server-goroutine dief. Goroutine actions scheduled later never run,
because process exit kills every goroutine. -/
def processEndTime (configPath : String) (ext : Ext) : Option Nat :=
  optMin (mainExitTime configPath ext) (serverDiefTime configPath ext)

/-- Whether `SharedInformerFactory.Start` inside the delayed goroutine
actually executes in the given execution: the goroutine must have been
spawned (failure-free startup) and the process must still be alive when
the ten second sleep ends. -/
def customFactoryStartRealized (configPath : String) (flagCfg : Config)
    (ext : Ext) : Bool :=
  noFatalInit configPath ext &&
  (match processEndTime configPath ext with
   | none => true
   | some tEnd =>
       decide (customResourceWarmUpDelayNs (effCfgOr configPath flagCfg ext) < tEnd))

/-- A failure-free execution in which SIGINT is delivered two seconds
after process start. -/
def extSig2s : Ext :=
  { fileLoadResult := Except.ok defaultFlagConfig, loggerResult := none,
    marshalResult := none, informerResult := none, newServerResult := none,
    serverRunResult := none, signals := [(2000000000, 2)] }

/-- An execution in which the configuration file fails to load. -/
def extBadConfig : Ext :=
  { fileLoadResult := Except.error ("invalid yaml"), loggerResult := none,
    marshalResult := none, informerResult := none, newServerResult := none,
    serverRunResult := none, signals := [] }

/- ------------------------------------------------------------------ -/
/- Helper lemmas. -/

theorem exceptIsOk_iff (r : Except String Config) :
    exceptIsOk r = true ↔ ∃ c, r = Except.ok c := by
  cases r <;> simp [exceptIsOk]

theorem noFatalInit_iff (configPath : String) (ext : Ext) :
    noFatalInit configPath ext = true ↔
      ((configPath = "" ∨ ∃ c, ext.fileLoadResult = Except.ok c) ∧
        ext.loggerResult = none ∧ ext.marshalResult = none ∧
        ext.informerResult = none ∧ ext.newServerResult = none) := by
  simp [noFatalInit, Bool.and_eq_true, Bool.or_eq_true, exceptIsOk_iff,
    Option.isNone_iff_eq_none, beq_iff_eq, and_assoc]

theorem effectiveConfig_ok_of_noFatalInit (configPath : String)
    (flagCfg : Config) (ext : Ext) (h : noFatalInit configPath ext = true) :
    ∃ c, effectiveConfig configPath flagCfg ext.fileLoadResult = Except.ok c := by
  rcases (noFatalInit_iff configPath ext).1 h with ⟨hcfg, -, -, -, -⟩
  by_cases hz : configPath = ""
  · exact ⟨flagCfg, by simp [effectiveConfig, hz]⟩
  · rcases hcfg with hc | ⟨c, hc⟩
    · exact absurd hc hz
    · exact ⟨c, by simp [effectiveConfig, hz, hc]⟩

theorem runMain_clean (configPath : String) (flagCfg : Config) (ext : Ext)
    (h : noFatalInit configPath ext = true) :
    runMain configPath flagCfg ext =
      { events := startupEvents ++
          (match firstSubscribed ext.signals with
           | none => []
           | some _ => [StartEvent.closeStop, StartEvent.logExited]),
        exitCode :=
          (match firstSubscribed ext.signals with
           | none => none
           | some _ => some 0),
        stderr := none } := by
  rcases (noFatalInit_iff configPath ext).1 h with ⟨-, hl, hm, hi, hn⟩
  rcases effectiveConfig_ok_of_noFatalInit configPath flagCfg ext h with ⟨c, hc⟩
  cases hfs : firstSubscribed ext.signals <;>
    simp [runMain, hc, hl, hm, hi, hn, hfs]

theorem timedTrace_sleep_then_start (t n : Nat) :
    timedTrace t [GoAction.sleepNs n, GoAction.customFactoryStart] =
      [(t + n, GoAction.sleepNs n), (t + n, GoAction.customFactoryStart)] := by
  rw [timedTrace, timedTrace, timedTrace]
  simp [actionDuration]

theorem mainTrace_clean (configPath : String) (flagCfg : Config) (ext : Ext)
    (h : noFatalInit configPath ext = true) :
    sysTraces configPath flagCfg ext GoTask.mainT =
      startupEvents.map GoAction.startEv ++
        (match firstSubscribed ext.signals with
         | none => []
         | some _ => [GoAction.startEv StartEvent.closeStop,
                      GoAction.startEv StartEvent.logExited]) := by
  have hrm := runMain_clean configPath flagCfg ext h
  cases hfs : firstSubscribed ext.signals <;>
    simp [hfs] at hrm <;>
    simp [sysTraces, hrm, hfs]

/- ------------------------------------------------------------------ -/
/- Claims. -/

/-- Claim C9: the warm-up delay before the custom-resource delivery loop
is the literal constant ten seconds (10 * time.Second nanoseconds),
identical for every configuration value, hence not changeable by any
configuration field or flag. -/
theorem C9_fixed_warmup_delay (cfg cfg2 : Config) :
    customResourceWarmUpDelayNs cfg = 10 * timeSecondNs ∧
    customResourceWarmUpDelayNs cfg = customResourceWarmUpDelayNs cfg2 ∧
    customResourceWarmUpDelayNs cfg = 10000000000 :=
  ⟨rfl, rfl, rfl⟩

/-- Claim C10: with a non-empty --config-path and a successful file load,
the effective configuration is exactly the file configuration, for every
flag-built configuration (flags are ignored); with an empty --config-path
the flag-built configuration is in force. -/
theorem C10_config_file_overrides_flags (configPath : String)
    (flagCfg flagCfg2 fileCfg : Config) (r : Except String Config)
    (hne : configPath ≠ "") (hok : r = Except.ok fileCfg) :
    effectiveConfig configPath flagCfg r = Except.ok fileCfg ∧
    effectiveConfig configPath flagCfg r =
      effectiveConfig configPath flagCfg2 r ∧
    effectiveConfig ("") flagCfg r = Except.ok flagCfg := by
  subst hok
  simp [effectiveConfig, hne]

/-- Claim C1, as stated, is false of the code: with the cancellation signal
already fired at the moment the ten second sleep returns, the delayed
goroutine still performs the custom-resource factory start -- its body
(ingress.go lines 149-152) contains no cancellation check at all. -/
theorem C1_counterexample :
    GoAction.customFactoryStart ∈
      delayedBodyRun defaultFlagConfig ChanState.fired := by
  simp [delayedBodyRun]

/-- Claim C1 (amended): when the first subscribed termination signal fires
before the warm-up delay expires, the custom-resource factory start never
executes, but only because the process ends at the signal time (or
earlier), killing the pending goroutine; the goroutine body itself
performs no cancellation check and would invoke the factory start
unconditionally after its sleep, even on a fired channel. -/
theorem C1_skip_only_via_process_exit (configPath : String)
    (flagCfg : Config) (ext : Ext) (p : Nat × Nat)
    (h : firstSubscribed ext.signals = some p)
    (hts : p.1 < customResourceWarmUpDelayNs (effCfgOr configPath flagCfg ext)) :
    customFactoryStartRealized configPath flagCfg ext = false ∧
    delayedBodyRun (effCfgOr configPath flagCfg ext) ChanState.fired =
      [GoAction.sleepNs (customResourceWarmUpDelayNs (effCfgOr configPath flagCfg ext)),
       GoAction.customFactoryStart] := by
  refine ⟨?_, rfl⟩
  cases hf : noFatalInit configPath ext with
  | false => simp [customFactoryStartRealized, hf]
  | true =>
      have hend : ∃ tEnd, processEndTime configPath ext = some tEnd ∧ tEnd ≤ p.1 := by
        cases hs : ext.serverRunResult with
        | none =>
            exact ⟨p.1, by simp [processEndTime, mainExitTime, serverDiefTime,
              hf, h, hs, optMin], Nat.le_refl p.1⟩
        | some q =>
            exact ⟨min p.1 q.1, by simp [processEndTime, mainExitTime,
              serverDiefTime, hf, h, hs, optMin], Nat.min_le_left p.1 q.1⟩
      rcases hend with ⟨tEnd, hEnd, hle⟩
      simp [customFactoryStartRealized, hf, hEnd]
      omega

/-- Witness for the amended C1: SIGINT at two seconds, warm-up delay ten
seconds; the factory start is never realized, although the goroutine body
holds no check. -/
theorem C1_witness :
    customFactoryStartRealized ("") defaultFlagConfig extSig2s = false ∧
    delayedBodyRun (effCfgOr ("") defaultFlagConfig extSig2s) ChanState.fired =
      [GoAction.sleepNs (customResourceWarmUpDelayNs
          (effCfgOr ("") defaultFlagConfig extSig2s)),
       GoAction.customFactoryStart] :=
  C1_skip_only_via_process_exit ("") defaultFlagConfig extSig2s
    (2000000000, 2) rfl (by decide)

/-- Claim C2, as stated, is false of the code: firing the broadcaster is a
Go channel close, and a second close applied to the already closed channel
is a runtime panic, not a no-op. -/
theorem C2_counterexample :
    closeChan ChanState.fired = Except.error ("close of closed channel") :=
  rfl

/-- Claim C2 (amended): the close primitive is not idempotent (a repeated
close would panic), but the program never fires twice: waitForSignal
receives a single signal and performs exactly one close, applied to the
still-armed channel, so the close never errors and every execution shows
at most one armed to fired transition, exactly when a subscribed signal
arrives. -/
theorem C2_fire_at_most_once (signals : List (Nat × Nat)) :
    ∃ st : ChanState, (waitForSignalRun signals).2 = Except.ok st ∧
      (st = ChanState.fired ↔ (firstSubscribed signals).isSome = true) := by
  cases hfs : firstSubscribed signals with
  | none => exact ⟨ChanState.armed, by simp [waitForSignalRun, hfs]⟩
  | some p => exact ⟨ChanState.fired, by simp [waitForSignalRun, hfs, closeChan]⟩

/-- Claim C5: every configuration-load failure and every logger
construction failure ends the process with exit code 1 and a diagnostic on
stderr while the event list is still empty: no watcher registration, no
factory start, no goroutine spawn and no server construction has happened
at exit. -/
theorem C5_fatal_before_startup (configPath : String) (flagCfg : Config)
    (ext : Ext)
    (h : (configPath ≠ "" ∧ ∃ e, ext.fileLoadResult = Except.error e) ∨
         (∃ e, ext.loggerResult = some e)) :
    (runMain configPath flagCfg ext).events = [] ∧
    (runMain configPath flagCfg ext).exitCode = some 1 ∧
    (runMain configPath flagCfg ext).stderr ≠ none := by
  rcases h with ⟨hne, e, hf⟩ | ⟨e, hl⟩
  · simp [runMain, effectiveConfig, hne, hf, dief]
  · cases hcf : effectiveConfig configPath flagCfg ext.fileLoadResult with
    | error e2 => simp [runMain, hcf, dief]
    | ok c => simp [runMain, hcf, hl, dief]

/-- Witness for C5: a failing configuration file. -/
theorem C5_witness :
    (runMain ("/etc/a.yaml") defaultFlagConfig extBadConfig).events = [] ∧
    (runMain ("/etc/a.yaml") defaultFlagConfig extBadConfig).exitCode = some 1 ∧
    (runMain ("/etc/a.yaml") defaultFlagConfig extBadConfig).stderr ≠ none :=
  C5_fatal_before_startup ("/etc/a.yaml") defaultFlagConfig extBadConfig
    (Or.inl ⟨by decide, "invalid yaml", rfl⟩)

/-- Claim C6: a non-nil error from srv.Run -- immediate bind failure or a
later abnormal termination -- makes the server goroutine call dief, ending
the whole process with exit code 1 and a descriptive stderr line; a nil
return (clean cancellation-triggered shutdown) terminates nothing through
this path. -/
theorem C6_server_run_errors_fatal (runResult : Option String) :
    (∀ e, runResult = some e →
      serverGoroutineRun runResult =
        some (1, sprintfS ("failed to launch API Server: %s" ++ "\n") e)) ∧
    (runResult = none → serverGoroutineRun runResult = none) := by
  constructor
  · intro e he
    subst he
    have hnl : endsWithNewline ("failed to launch API Server: %s") = false := by
      decide
    simp [serverGoroutineRun, dief, hnl]
  · intro he
    subst he
    rfl

/-- Witness for C6: a bind failure and a clean shutdown. -/
theorem C6_witness :
    serverGoroutineRun (some ("listen tcp :8080: bind: address already in use")) =
      some (1, sprintfS ("failed to launch API Server: %s" ++ "\n")
        ("listen tcp :8080: bind: address already in use")) ∧
    serverGoroutineRun none = none :=
  ⟨(C6_server_run_errors_fatal
      (some ("listen tcp :8080: bind: address already in use"))).1
      ("listen tcp :8080: bind: address already in use") rfl,
   (C6_server_run_errors_fatal none).2 rfl⟩

/-- Claim C8: only SIGINT and SIGTERM are subscribed; when no delivered
signal is one of them the wait takes no action and the stop channel stays
armed, and when the first subscribed signal arrives the wait returns it
and the cancellation channel is closed. -/
theorem C8_signal_set (signals : List (Nat × Nat)) :
    notifiedSignals = [SIGINT, SIGTERM] ∧
    ((∀ p ∈ signals, p.2 ∉ notifiedSignals) →
      waitForSignalRun signals = (none, Except.ok ChanState.armed)) ∧
    (∀ p, firstSubscribed signals = some p →
      p.2 ∈ notifiedSignals ∧
      waitForSignalRun signals = (some p, Except.ok ChanState.fired)) := by
  refine ⟨rfl, ?_, ?_⟩
  · intro hnone
    have hfilter : signals.filter (fun p => decide (p.2 ∈ notifiedSignals)) = [] := by
      simp only [List.filter_eq_nil_iff, decide_eq_true_eq]
      exact hnone
    simp [waitForSignalRun, firstSubscribed, hfilter]
  · intro p hp
    have hmem : p ∈ signals.filter (fun q => decide (q.2 ∈ notifiedSignals)) := by
      unfold firstSubscribed at hp
      cases hfl : signals.filter (fun q => decide (q.2 ∈ notifiedSignals)) with
      | nil => rw [hfl] at hp; simp at hp
      | cons a rest =>
          rw [hfl] at hp
          simp at hp
          simp [hp]
    have hsub : p.2 ∈ notifiedSignals := by
      have := List.of_mem_filter hmem
      simpa using this
    exact ⟨hsub, by simp [waitForSignalRun, hp, closeChan]⟩

/-- Witness for C8: an unsubscribed burst takes no action; SIGTERM at four
seconds (after an unsubscribed SIGHUP) fires the channel. -/
theorem C8_witness :
    waitForSignalRun [(5, 1), (7, 30)] = (none, Except.ok ChanState.armed) ∧
    ((4000000000, 15).2 ∈ notifiedSignals ∧
      waitForSignalRun [(3, 1), (4000000000, 15)] =
        (some (4000000000, 15), Except.ok ChanState.fired)) :=
  ⟨(C8_signal_set [(5, 1), (7, 30)]).2.1 (by decide),
   (C8_signal_set [(3, 1), (4000000000, 15)]).2.2 (4000000000, 15) (by decide)⟩

/-- Claim C3: for every watcher in both groups, the registration call sits
at a main-flow position that happens-before the factory start that
delivers events of that kind: the endpoints registration happens-before
the core factory start, and each custom-resource registration (route,
upstream, service, TLS) happens-before the delayed shared-factory start.
The wiring of the endpoint handler to the core factory and of the four
custom handlers to the shared factory follows the factories the controller
is constructed with (ingress.go lines 127-152). -/
theorem C3_registration_before_delivery (configPath : String)
    (flagCfg : Config) (ext : Ext)
    (h : noFatalInit configPath ext = true) :
    regBeforeStart (sysTraces configPath flagCfg ext)
      StartEvent.registerEndpoint (GoTask.coreT, 0)
      GoAction.coreFactoryStart ∧
    regBeforeStart (sysTraces configPath flagCfg ext)
      StartEvent.registerApisixRoute (GoTask.delayedT, 1)
      GoAction.customFactoryStart ∧
    regBeforeStart (sysTraces configPath flagCfg ext)
      StartEvent.registerApisixUpstream (GoTask.delayedT, 1)
      GoAction.customFactoryStart ∧
    regBeforeStart (sysTraces configPath flagCfg ext)
      StartEvent.registerApisixService (GoTask.delayedT, 1)
      GoAction.customFactoryStart ∧
    regBeforeStart (sysTraces configPath flagCfg ext)
      StartEvent.registerApisixTLS (GoTask.delayedT, 1)
      GoAction.customFactoryStart := by
  have hm := mainTrace_clean configPath flagCfg ext h
  have hlen : 12 ≤ (sysTraces configPath flagCfg ext GoTask.mainT).length := by
    rw [hm]
    cases firstSubscribed ext.signals <;> simp [startupEvents]
  have g3 : (sysTraces configPath flagCfg ext GoTask.mainT)[3]? =
      some (GoAction.startEv StartEvent.registerEndpoint) := by
    rw [hm, List.getElem?_append]; norm_num [startupEvents]
  have g4 : (sysTraces configPath flagCfg ext GoTask.mainT)[4]? =
      some (GoAction.startEv StartEvent.spawnCoreFactoryStart) := by
    rw [hm, List.getElem?_append]; norm_num [startupEvents]
  have g5 : (sysTraces configPath flagCfg ext GoTask.mainT)[5]? =
      some (GoAction.startEv StartEvent.registerApisixRoute) := by
    rw [hm, List.getElem?_append]; norm_num [startupEvents]
  have g6 : (sysTraces configPath flagCfg ext GoTask.mainT)[6]? =
      some (GoAction.startEv StartEvent.registerApisixUpstream) := by
    rw [hm, List.getElem?_append]; norm_num [startupEvents]
  have g7 : (sysTraces configPath flagCfg ext GoTask.mainT)[7]? =
      some (GoAction.startEv StartEvent.registerApisixService) := by
    rw [hm, List.getElem?_append]; norm_num [startupEvents]
  have g8 : (sysTraces configPath flagCfg ext GoTask.mainT)[8]? =
      some (GoAction.startEv StartEvent.registerApisixTLS) := by
    rw [hm, List.getElem?_append]; norm_num [startupEvents]
  have g9 : (sysTraces configPath flagCfg ext GoTask.mainT)[9]? =
      some (GoAction.startEv StartEvent.spawnDelayedCustomStart) := by
    rw [hm, List.getElem?_append]; norm_num [startupEvents]
  have hdel : 1 < (sysTraces configPath flagCfg ext GoTask.delayedT).length := by
    simp [sysTraces, delayedBodyRun]
  have hsc : spawnEventOf GoTask.coreT = some StartEvent.spawnCoreFactoryStart :=
    rfl
  have hsd : spawnEventOf GoTask.delayedT = some StartEvent.spawnDelayedCustomStart :=
    rfl
  refine ⟨⟨3, g3, rfl, HB.trans (HB.prog (by omega) (by omega))
            (HB.spawn hsc g4)⟩,
          ⟨5, g5, rfl, HB.trans (HB.prog (by omega) (by omega))
            (HB.trans (HB.spawn hsd g9) (HB.prog (by omega) hdel))⟩,
          ⟨6, g6, rfl, HB.trans (HB.prog (by omega) (by omega))
            (HB.trans (HB.spawn hsd g9) (HB.prog (by omega) hdel))⟩,
          ⟨7, g7, rfl, HB.trans (HB.prog (by omega) (by omega))
            (HB.trans (HB.spawn hsd g9) (HB.prog (by omega) hdel))⟩,
          ⟨8, g8, rfl, HB.trans (HB.prog (by omega) (by omega))
            (HB.trans (HB.spawn hsd g9) (HB.prog (by omega) hdel))⟩⟩

/-- Witness for C3 at a concrete failure-free execution. -/
theorem C3_witness :
    regBeforeStart (sysTraces ("") defaultFlagConfig extSig2s)
      StartEvent.registerEndpoint (GoTask.coreT, 0)
      GoAction.coreFactoryStart ∧
    regBeforeStart (sysTraces ("") defaultFlagConfig extSig2s)
      StartEvent.registerApisixRoute (GoTask.delayedT, 1)
      GoAction.customFactoryStart ∧
    regBeforeStart (sysTraces ("") defaultFlagConfig extSig2s)
      StartEvent.registerApisixUpstream (GoTask.delayedT, 1)
      GoAction.customFactoryStart ∧
    regBeforeStart (sysTraces ("") defaultFlagConfig extSig2s)
      StartEvent.registerApisixService (GoTask.delayedT, 1)
      GoAction.customFactoryStart ∧
    regBeforeStart (sysTraces ("") defaultFlagConfig extSig2s)
      StartEvent.registerApisixTLS (GoTask.delayedT, 1)
      GoAction.customFactoryStart :=
  C3_registration_before_delivery ("") defaultFlagConfig extSig2s (by decide)

/-- Claim C4: the two groups start staggered. The core factory start runs
in its goroutine at time zero; the endpoints registration precedes its
spawn in the main flow; the delayed goroutine performs the custom factory
start only at the fixed warm-up delay; and the spawn does not block the
main flow, which continues with the server construction and spawn and
contains no sleep at all. -/
theorem C4_staggered_start (configPath : String) (flagCfg : Config)
    (ext : Ext) (h : noFatalInit configPath ext = true) :
    timedTrace 0 (sysTraces configPath flagCfg ext GoTask.coreT) =
      [(0, GoAction.coreFactoryStart)] ∧
    (sysTraces configPath flagCfg ext GoTask.mainT)[3]? =
      some (GoAction.startEv StartEvent.registerEndpoint) ∧
    (sysTraces configPath flagCfg ext GoTask.mainT)[4]? =
      some (GoAction.startEv StartEvent.spawnCoreFactoryStart) ∧
    timedTrace 0 (sysTraces configPath flagCfg ext GoTask.delayedT) =
      [(customResourceWarmUpDelayNs (effCfgOr configPath flagCfg ext),
        GoAction.sleepNs (customResourceWarmUpDelayNs
          (effCfgOr configPath flagCfg ext))),
       (customResourceWarmUpDelayNs (effCfgOr configPath flagCfg ext),
        GoAction.customFactoryStart)] ∧
    0 < customResourceWarmUpDelayNs (effCfgOr configPath flagCfg ext) ∧
    (sysTraces configPath flagCfg ext GoTask.mainT)[9]? =
      some (GoAction.startEv StartEvent.spawnDelayedCustomStart) ∧
    (sysTraces configPath flagCfg ext GoTask.mainT)[10]? =
      some (GoAction.startEv StartEvent.newServer) ∧
    (sysTraces configPath flagCfg ext GoTask.mainT)[11]? =
      some (GoAction.startEv StartEvent.spawnServerRun) ∧
    (∀ n : Nat,
      GoAction.sleepNs n ∉ sysTraces configPath flagCfg ext GoTask.mainT) := by
  have hm := mainTrace_clean configPath flagCfg ext h
  have hdtr : sysTraces configPath flagCfg ext GoTask.delayedT =
      [GoAction.sleepNs (customResourceWarmUpDelayNs
          (effCfgOr configPath flagCfg ext)),
       GoAction.customFactoryStart] := rfl
  have htimed := timedTrace_sleep_then_start 0
    (customResourceWarmUpDelayNs (effCfgOr configPath flagCfg ext))
  rw [Nat.zero_add] at htimed
  refine ⟨rfl,
    by rw [hm, List.getElem?_append]; norm_num [startupEvents],
    by rw [hm, List.getElem?_append]; norm_num [startupEvents],
    by rw [hdtr]; exact htimed,
    by norm_num [customResourceWarmUpDelayNs, timeSecondNs],
    by rw [hm, List.getElem?_append]; norm_num [startupEvents],
    by rw [hm, List.getElem?_append]; norm_num [startupEvents],
    by rw [hm, List.getElem?_append]; norm_num [startupEvents],
    ?_⟩
  intro n hmemb
  rw [hm] at hmemb
  cases hfs : firstSubscribed ext.signals <;>
    simp [hfs, startupEvents] at hmemb

/-- Witness for C4 at a concrete failure-free execution. -/
theorem C4_witness :
    timedTrace 0 (sysTraces ("") defaultFlagConfig extSig2s GoTask.coreT) =
      [(0, GoAction.coreFactoryStart)] ∧
    (sysTraces ("") defaultFlagConfig extSig2s GoTask.mainT)[3]? =
      some (GoAction.startEv StartEvent.registerEndpoint) ∧
    (sysTraces ("") defaultFlagConfig extSig2s GoTask.mainT)[4]? =
      some (GoAction.startEv StartEvent.spawnCoreFactoryStart) ∧
    timedTrace 0 (sysTraces ("") defaultFlagConfig extSig2s GoTask.delayedT) =
      [(customResourceWarmUpDelayNs (effCfgOr ("") defaultFlagConfig extSig2s),
        GoAction.sleepNs (customResourceWarmUpDelayNs
          (effCfgOr ("") defaultFlagConfig extSig2s))),
       (customResourceWarmUpDelayNs (effCfgOr ("") defaultFlagConfig extSig2s),
        GoAction.customFactoryStart)] ∧
    0 < customResourceWarmUpDelayNs (effCfgOr ("") defaultFlagConfig extSig2s) ∧
    (sysTraces ("") defaultFlagConfig extSig2s GoTask.mainT)[9]? =
      some (GoAction.startEv StartEvent.spawnDelayedCustomStart) ∧
    (sysTraces ("") defaultFlagConfig extSig2s GoTask.mainT)[10]? =
      some (GoAction.startEv StartEvent.newServer) ∧
    (sysTraces ("") defaultFlagConfig extSig2s GoTask.mainT)[11]? =
      some (GoAction.startEv StartEvent.spawnServerRun) ∧
    (∀ n : Nat,
      GoAction.sleepNs n ∉ sysTraces ("") defaultFlagConfig extSig2s GoTask.mainT) :=
  C4_staggered_start ("") defaultFlagConfig extSig2s (by decide)

theorem runMain_fatal (configPath : String) (flagCfg : Config) (ext : Ext)
    (h : noFatalInit configPath ext = false) :
    (runMain configPath flagCfg ext).exitCode = some 1 ∧
    (runMain configPath flagCfg ext).stderr ≠ none := by
  cases hcf : effectiveConfig configPath flagCfg ext.fileLoadResult with
  | error e => simp [runMain, hcf, dief]
  | ok c =>
    cases hl : ext.loggerResult with
    | some e => simp [runMain, hcf, hl, dief]
    | none =>
      cases hmr : ext.marshalResult with
      | some d => simp [runMain, hcf, hl, hmr, dief]
      | none =>
        cases hi : ext.informerResult with
        | some e => simp [runMain, hcf, hl, hmr, hi, dief]
        | none =>
          cases hn : ext.newServerResult with
          | some e => simp [runMain, hcf, hl, hmr, hi, hn, dief]
          | none =>
            exfalso
            have htrue : noFatalInit configPath ext = true := by
              rw [noFatalInit_iff]
              refine ⟨?_, hl, hmr, hi, hn⟩
              by_cases hz : configPath = ""
              · exact Or.inl hz
              · simp [effectiveConfig, hz] at hcf
                exact Or.inr ⟨c, hcf⟩
            simp [htrue] at h

/-- Claim C7: the main flow exits 0 exactly when the startup is
failure-free and a subscribed termination signal arrives (clean
signal-triggered shutdown); every fatal startup failure exits 1 with a
stderr diagnostic; and a server bind or run failure likewise ends the
process with exit code 1. -/
theorem C7_exit_code_discipline (configPath : String) (flagCfg : Config)
    (ext : Ext) :
    ((runMain configPath flagCfg ext).exitCode = some 0 ↔
      (noFatalInit configPath ext = true ∧
        (firstSubscribed ext.signals).isSome = true)) ∧
    (noFatalInit configPath ext = false →
      (runMain configPath flagCfg ext).exitCode = some 1 ∧
      (runMain configPath flagCfg ext).stderr ≠ none) ∧
    (∀ e, (serverGoroutineRun (some e)).map Prod.fst = some 1) := by
  refine ⟨?_, ?_, ?_⟩
  · cases hnf : noFatalInit configPath ext with
    | true =>
        have hrm := runMain_clean configPath flagCfg ext hnf
        cases hfs : firstSubscribed ext.signals <;>
          simp [hfs] at hrm <;> simp [hrm, hfs]
    | false =>
        have hfatal := runMain_fatal configPath flagCfg ext hnf
        constructor
        · intro h0
          rw [hfatal.1] at h0
          simp at h0
        · rintro ⟨h1, -⟩
          simp at h1
  · intro hnf
    exact runMain_fatal configPath flagCfg ext hnf
  · intro e
    simp [serverGoroutineRun, dief]

/-- Witness for C7: clean shutdown exits 0; a bind failure exits 1. -/
theorem C7_witness :
    (runMain ("") defaultFlagConfig extSig2s).exitCode = some 0 ∧
    (serverGoroutineRun (some ("bind: address already in use"))).map Prod.fst =
      some 1 :=
  ⟨((C7_exit_code_discipline ("") defaultFlagConfig extSig2s).1).2
      ⟨by decide, by decide⟩,
   (C7_exit_code_discipline ("") defaultFlagConfig extSig2s).2.2
      ("bind: address already in use")⟩

/-- Witness for C10 at a concrete invocation. -/
theorem C10_witness :
    effectiveConfig ("/etc/apisix/config.yaml") defaultFlagConfig
        (Except.ok defaultFlagConfig) = Except.ok defaultFlagConfig ∧
    effectiveConfig ("/etc/apisix/config.yaml") defaultFlagConfig
        (Except.ok defaultFlagConfig) =
      effectiveConfig ("/etc/apisix/config.yaml") defaultFlagConfig
        (Except.ok defaultFlagConfig) ∧
    effectiveConfig ("") defaultFlagConfig (Except.ok defaultFlagConfig) =
      Except.ok defaultFlagConfig :=
  C10_config_file_overrides_flags ("/etc/apisix/config.yaml")
    defaultFlagConfig defaultFlagConfig defaultFlagConfig
    (Except.ok defaultFlagConfig) (by decide) rfl

end Ingress
